import Mathlib

/-!
A shallow embedding of the MSP430 emulator core (src/main.rs of
msp430_rust): register file, memory map, status flags, operand
resolution, the three instruction formats, interrupt delivery and
stepping.  Machine words are modelled as natural numbers reduced modulo
65536, memory bytes modulo 256; the wrapping arithmetic of the Rust
code becomes explicit modular arithmetic, and the fatal paths (invalid
decodes, the unimplemented decimal add) become an explicit error type.
-/

namespace Msp430

/-- Fatal interpreter conditions: the unreachable addressing mode, the
two invalid opcode decodes, and the unimplemented decimal add. -/
inductive ExecErr where
  | impossibleAddressingMode
  | invalidSingleOpcode
  | invalidDoubleOpcode
  | unimplementedDADD
deriving DecidableEq, Repr

/-- Machine state.  pc, sp and sr are registers 0, 1 and 2 (the constant
generator is register 3 and holds no state); regs i models
numbered_registers[i], that is the register with id i + 4; mem is the
flat 64KB byte-addressable memory. -/
structure Computer where
  pc : Nat
  sp : Nat
  sr : Nat
  regs : Nat → Nat
  mem : Nat → Nat

/-- StatusFlags::CARRY (0x1). -/
def CARRY : Nat := 1
/-- StatusFlags::ZERO (0x2). -/
def ZERO : Nat := 2
/-- StatusFlags::NEGATIVE (0x4). -/
def NEGATIVE : Nat := 4
/-- StatusFlags::GIE (0x8). -/
def GIE : Nat := 8
/-- StatusFlags::CPUOFF (0x10). -/
def CPUOFF : Nat := 16
/-- StatusFlags::OVERFLOW (0x100). -/
def OVERFLOW : Nat := 256

/-- Computer::get_register followed by get_word: register 0 is the pc,
1 the sp, 2 the status register, 3 the constant generator (always reads
as zero), 4..15 the numbered registers. -/
def getRegister (c : Computer) (id : Nat) : Nat :=
  if id = 0 then c.pc
  else if id = 1 then c.sp
  else if id = 2 then c.sr
  else if id = 3 then 0
  else c.regs (id - 4)

/-- Computer::get_register followed by get_byte: every variant returns
the low byte of its word value. -/
def getRegisterByte (c : Computer) (id : Nat) : Nat :=
  getRegister c id % 256

/-- Computer::get_register followed by set_word.  EvenRegister (ids 0
and 1) masks the stored word with 0xfffe; StatusRegister stores the
word; ConstantGeneratorRegister ignores writes; BasicRegister stores
the word. -/
def setRegisterWord (c : Computer) (id v : Nat) : Computer :=
  if id = 0 then { c with pc := (v % 65536) &&& 65534 }
  else if id = 1 then { c with sp := (v % 65536) &&& 65534 }
  else if id = 2 then { c with sr := v % 65536 }
  else if id = 3 then c
  else { c with regs := fun j => if j = id - 4 then v % 65536 else c.regs j }

/-- Computer::get_register followed by set_byte.  EvenRegister masks the
byte with 0xfe; the byte becomes the whole stored word (high byte
cleared), as in the Rust register implementations. -/
def setRegisterByte (c : Computer) (id v : Nat) : Computer :=
  if id = 0 then { c with pc := (v % 256) &&& 254 }
  else if id = 1 then { c with sp := (v % 256) &&& 254 }
  else if id = 2 then { c with sr := v % 256 }
  else if id = 3 then c
  else { c with regs := fun j => if j = id - 4 then v % 256 else c.regs j }

/-- MemoryMap::get_byte. -/
def memGetByte (c : Computer) (index : Nat) : Nat :=
  c.mem (index % 65536)

/-- MemoryMap::set_byte. -/
def memSetByte (c : Computer) (index v : Nat) : Computer :=
  { c with mem := fun j => if j = index % 65536 then v % 256 else c.mem j }

/-- MemoryMap::get_word: big-endian composite of the bytes at index and
index + 1, the second index wrapping modulo 65536. -/
def memGetWord (c : Computer) (index : Nat) : Nat :=
  c.mem (index % 65536) * 256 + c.mem ((index + 1) % 65536)

/-- MemoryMap::set_word: the high byte goes to index, the low byte to
index + 1 (wrapping). -/
def memSetWord (c : Computer) (index v : Nat) : Computer :=
  memSetByte (memSetByte c index ((v >>> 8) &&& 255)) (index + 1) (v &&& 255)

/-- StatusRegister::get_status: the word ANDed with the flag bits is
nonzero. -/
def getStatus (c : Computer) (flag : Nat) : Bool :=
  decide (c.sr &&& flag ≠ 0)

/-- StatusRegister::set_status: OR the flag bits in, or AND with their
16-bit complement. -/
def setStatus (c : Computer) (flag : Nat) (set : Bool) : Computer :=
  if set then setRegisterWord c 2 (c.sr ||| flag)
  else setRegisterWord c 2 (c.sr &&& (65535 ^^^ flag))

/-- The WriteTargets union: void, a register id, or a memory address. -/
inductive WriteTargets where
  | void
  | register (reg : Nat)
  | memory (address : Nat)
deriving DecidableEq, Repr

/-- WriteTargets::set_word. -/
def writeTargetSetWord : WriteTargets → Nat → Computer → Computer
  | .void, _, c => c
  | .register r, v, c => setRegisterWord c r v
  | .memory a, v, c => memSetWord c a v

/-- WriteTargets::set_byte. -/
def writeTargetSetByte : WriteTargets → Nat → Computer → Computer
  | .void, _, c => c
  | .register r, v, c => setRegisterByte c r v
  | .memory a, v, c => memSetByte c a v

/-- Computer::_push: decrement sp by 2 (adding 0xfffd instead when
sp <= 1, to wrap inside 16 bits), store sp, then write the value: the
low byte at sp_word + 1 in byte mode, the full word at sp_word
otherwise.  Note the memory write uses the local sp_word, not the
masked register value. -/
def push (c : Computer) (value : Nat) (bw : Bool) : Computer :=
  let sp_word := if c.sp ≤ 1 then c.sp + (65535 - 2) else c.sp - 2
  let c1 := setRegisterWord c 1 sp_word
  if bw then memSetByte c1 (sp_word + 1) (value &&& 255)
  else memSetWord c1 sp_word value

/-- Computer::_get_src: resolve a source operand from a 4-bit register
id, 2-bit addressing mode and byte/word flag, producing the value, the
write target and the successor state.  Registers 3 (and 2 outside modes
0 and 1) are the constant generator cases. -/
def get_src (c : Computer) (src_reg as_ : Nat) (bw : Bool) :
    Except ExecErr (Nat × WriteTargets × Computer) :=
  if src_reg = 3 ∨ (src_reg = 2 ∧ 1 < as_) then
    let src :=
      if src_reg = 2 then
        if as_ = 2 then 4 else if as_ = 3 then 8 else 0
      else
        if as_ = 0 then 0
        else if as_ = 1 then 1
        else if as_ = 2 then 2
        else if as_ = 3 then (if bw then 255 else 65535)
        else 0
    .ok (src, .void, c)
  else if as_ = 0 then
    let src := if bw then getRegisterByte c src_reg else getRegister c src_reg
    .ok (src, .register src_reg, c)
  else if as_ = 1 then
    let offset :=
      if src_reg = 2 then memGetWord c c.pc
      else (memGetWord c c.pc + getRegister c src_reg) % 65536
    let c1 := setRegisterWord c 0 (c.pc + 2)
    let src := if bw then memGetByte c1 offset else memGetWord c1 offset
    .ok (src, .memory offset, c1)
  else if as_ = 2 then
    let target := getRegister c src_reg
    let src := if bw then memGetByte c target else memGetWord c target
    .ok (src, .memory target, c)
  else if as_ = 3 then
    let mem_target := getRegister c src_reg
    if bw then
      let src := memGetByte c mem_target
      let extra := if src_reg = 0 ∨ src_reg = 1 then 1 else 0
      .ok (src, .memory mem_target,
        setRegisterWord c src_reg ((mem_target + 1 + extra) % 65536))
    else
      let src := memGetWord c mem_target
      .ok (src, .memory mem_target,
        setRegisterWord c src_reg ((mem_target + 2) % 65536))
  else .error .impossibleAddressingMode

/-- Computer::_set_flags: ZERO from the truncated result, NEGATIVE from
its sign bit, CARRY from the untruncated result exceeding the mode
maximum, OVERFLOW from the literal predicate of the source code. -/
def set_flags (c : Computer) (src prev_dst full_dst dst : Nat)
    (byte_mode : Bool) : Computer :=
  let byte_int := if byte_mode then 7 else 15
  let dst_sign := (dst >>> byte_int) &&& 1
  let prev_dst_sign := (prev_dst >>> byte_int) &&& 1
  let c1 := setStatus c ZERO (decide (dst = 0))
  let c2 := setStatus c1 NEGATIVE (decide (dst_sign = 1))
  let c3 := setStatus c2 CARRY
    (decide (full_dst > if byte_mode then 255 else 65535))
  setStatus c3 OVERFLOW
    (decide (prev_dst = (src >>> byte_int) &&& 1) && decide (prev_dst_sign ≠ dst_sign))

/-- Computer::_execute_single_operand: decode the fields, resolve the
source, run the opcode arm producing (state, result, no_write), then
write the result back unless suppressed. -/
def execute_single_operand (c : Computer) (instruction : Nat) :
    Except ExecErr Computer :=
  let opcode := (instruction >>> 7) &&& 7
  let src_reg := instruction &&& 15
  let as_ := (instruction >>> 4) &&& 3
  let bw : Bool := decide ((instruction >>> 6) &&& 1 = 1)
  let bw_num := if bw then 7 else 15
  match get_src c src_reg as_ bw with
  | .error e => .error e
  | .ok (src_imu, wt, c0) =>
    let arm : Except ExecErr (Computer × Nat × Bool) :=
      if opcode = 0 then -- RRC
        let carry := decide (src_imu &&& 1 = 1)
        let s1 := (src_imu >>> 1) ||| ((if getStatus c0 CARRY then 1 else 0) <<< bw_num)
        let c1 := setStatus c0 CARRY carry
        let c2 := setStatus c1 NEGATIVE (decide ((s1 >>> bw_num) &&& 1 = 1))
        let c3 := setStatus c2 ZERO (decide (s1 = 0))
        .ok (setStatus c3 OVERFLOW false, s1, false)
      else if opcode = 1 then -- SWPB
        if bw then .ok (c0, src_imu, false)
        else .ok (c0, ((src_imu &&& 65280) >>> 8) ||| ((src_imu &&& 255) <<< 8), false)
      else if opcode = 2 then -- RRA
        let c1 := setStatus c0 CARRY (decide (src_imu &&& 1 = 1))
        let msb_to_or := src_imu &&& (if bw then 128 else 32768)
        let s1 := (src_imu >>> 1) ||| msb_to_or
        let c2 := setStatus c1 NEGATIVE (decide ((s1 >>> bw_num) &&& 1 = 1))
        let c3 := setStatus c2 ZERO (decide (s1 = 0))
        .ok (setStatus c3 OVERFLOW false, s1, false)
      else if opcode = 3 then -- SXT
        if bw then .ok (c0, src_imu, false)
        else
          let s0 := src_imu &&& 255
          let neg := decide ((s0 >>> 7) &&& 1 = 1)
          let s1 := if neg then s0 ||| 65280 else s0
          let c1 := setStatus c0 NEGATIVE neg
          let c2 := setStatus c1 ZERO (decide (s1 = 0))
          let c3 := setStatus c2 CARRY (decide (s1 ≠ 0))
          .ok (setStatus c3 OVERFLOW false, s1, false)
      else if opcode = 4 then -- PUSH
        .ok (push c0 src_imu bw, src_imu, true)
      else if opcode = 5 then -- CALL
        if bw then .ok (c0, src_imu, false)
        else
          let c1 := setRegisterWord c0 1 ((c0.sp + 65534) % 65536)
          let c2 := memSetWord c1 c1.sp c1.pc
          .ok (setRegisterWord c2 0 src_imu, src_imu, true)
      else if opcode = 6 then -- RETI
        let c1 := setRegisterWord c0 2 (memGetWord c0 c0.sp)
        let c2 := setRegisterWord c1 1 ((c1.sp + 2) % 65536)
        let c3 := setRegisterWord c2 0 (memGetWord c2 c2.sp)
        .ok (setRegisterWord c3 1 ((c3.sp + 2) % 65536), src_imu, false)
      else .error .invalidSingleOpcode
    match arm with
    | .error e => .error e
    | .ok (c1, src, no_write) =>
      if no_write then .ok c1
      else if bw then .ok (writeTargetSetByte wt (src &&& 255) c1)
      else .ok (writeTargetSetWord wt src c1)

/-- The destination-resolution block of Computer::_execute_double_operand:
Ad = 0 reads the destination register (register write target); Ad = 1
reads an offset word at the pc (advancing the pc by 2), adds the
destination register, and reads memory there (memory write target). -/
def resolveDst (c0 : Computer) (instruction : Nat) :
    Nat × WriteTargets × Computer :=
  let ad := (instruction >>> 7) &&& 1
  let bw : Bool := decide ((instruction >>> 6) &&& 1 = 1)
  let dst_reg := instruction &&& 15
  if ad = 0 then
    ((if bw then getRegisterByte c0 dst_reg else getRegister c0 dst_reg),
      .register dst_reg, c0)
  else
    let offset := (memGetWord c0 c0.pc + getRegister c0 dst_reg) % 65536
    let c1 := setRegisterWord c0 0 ((c0.pc + 2) % 65536)
    ((if bw then memGetByte c1 offset else memGetWord c1 offset),
      .memory offset, c1)

/-- Computer::_execute_double_operand: decode the fields, resolve the
source (its write target is discarded), resolve the destination and its
write target, run the opcode arm, then write back unless suppressed. -/
def execute_double_operand (c : Computer) (instruction : Nat) :
    Except ExecErr Computer :=
  let opcode := (instruction >>> 12) &&& 15
  let src_reg := (instruction >>> 8) &&& 15
  let ad := (instruction >>> 7) &&& 1
  let bw : Bool := decide ((instruction >>> 6) &&& 1 = 1)
  let as_ := (instruction >>> 4) &&& 3
  let dst_reg := instruction &&& 15
  let byte_int := if bw then 7 else 15
  match get_src c src_reg as_ bw with
  | .error e => .error e
  | .ok (src, _, c0) =>
    let res : Nat × WriteTargets × Computer := resolveDst c0 instruction
    let dst0 := res.1
    let wt := res.2.1
    let c1 := res.2.2
    if opcode < 4 then .error .invalidDoubleOpcode
      else
        let opc := opcode - 4
        let cutoff := if bw then 255 else 65535
        let arm : Except ExecErr (Computer × Nat × Bool) :=
          if opc = 0 then -- MOV
            .ok (c1, src, false)
          else if opc = 1 then -- ADD
            let full_dst := dst0 + src
            let dst := full_dst &&& cutoff
            .ok (set_flags c1 src dst0 full_dst dst bw, dst, false)
          else if opc = 2 then -- ADDC
            let full_dst := dst0 + src + (if getStatus c1 CARRY then 1 else 0)
            let dst := full_dst &&& cutoff
            .ok (set_flags c1 src dst0 full_dst dst bw, dst, false)
          else if opc = 3 then -- SUBC: dst - src - 1 + carry, wrapping in u32
            let full_dst := (dst0 + 8589934591 - src
              + (if getStatus c1 CARRY then 1 else 0)) % 4294967296
            let dst := full_dst &&& cutoff
            .ok (set_flags c1 src dst0 full_dst dst bw, dst, false)
          else if opc = 4 then -- SUB: dst - src, wrapping in u32
            let full_dst := (dst0 + 4294967296 - src) % 4294967296
            let dst := full_dst &&& cutoff
            .ok (set_flags c1 src dst0 full_dst dst bw, dst, false)
          else if opc = 5 then -- CMP: as SUB but no write
            let full_dst := (dst0 + 4294967296 - src) % 4294967296
            let fake_dst := full_dst &&& cutoff
            .ok (set_flags c1 src dst0 full_dst fake_dst bw, fake_dst, true)
          else if opc = 6 then -- DADD: unimplemented, fatal
            .error .unimplementedDADD
          else if opc = 7 then -- BIT: as AND but no write
            let full_dst := dst0 &&& src
            let fake_dst := full_dst &&& cutoff
            let c2 := set_flags c1 src dst0 full_dst fake_dst bw
            let c3 := setStatus c2 CARRY (!getStatus c2 ZERO)
            .ok (setStatus c3 OVERFLOW false, fake_dst, true)
          else if opc = 8 then -- BIC
            .ok (c1, dst0 &&& (65535 ^^^ src), false)
          else if opc = 9 then -- BIS
            .ok (c1, dst0 ||| src, false)
          else if opc = 10 then -- XOR
            let dst := dst0 ^^^ src
            let c2 := setStatus c1 NEGATIVE (decide ((dst >>> byte_int) &&& 1 = 1))
            let c3 := setStatus c2 ZERO (decide (dst = 0))
            let c4 := setStatus c3 CARRY (decide (dst ≠ 0))
            .ok (setStatus c4 OVERFLOW
              (decide ((src >>> byte_int) &&& 1 = 1) && decide ((dst0 >>> byte_int) &&& 1 = 1)),
              dst, false)
          else -- AND (opc = 11; opcode is four bits so opc ends at 11)
            let dst := dst0 &&& src
            let c2 := setStatus c1 NEGATIVE (decide ((dst >>> byte_int) &&& 1 = 1))
            let c3 := setStatus c2 ZERO (decide (dst = 0))
            let c4 := setStatus c3 CARRY (decide (dst ≠ 0))
            .ok (setStatus c4 OVERFLOW false, dst, false)
        match arm with
        | .error e => .error e
        | .ok (c2, dst, no_write) =>
          if no_write then .ok c2
          else if bw then .ok (writeTargetSetByte wt (dst &&& 255) c2)
          else .ok (writeTargetSetWord wt dst c2)

/-- Computer::_execute_jump: 10-bit raw offset, reinterpreted as
negative when strictly above 512; 3-bit condition choosing whether to
skip; when not skipped the pc moves by twice the offset (i32 arithmetic
truncated back to u16). -/
def execute_jump (c : Computer) (instruction : Nat) : Computer :=
  let rawOffset := instruction &&& 1023
  let offset : Int :=
    if 512 < rawOffset then (rawOffset : Int) - 1024 else (rawOffset : Int)
  let condition := (instruction >>> 10) &&& 7
  let skip : Bool :=
    if condition = 0 then getStatus c ZERO
    else if condition = 1 then !getStatus c ZERO
    else if condition = 2 then getStatus c CARRY
    else if condition = 3 then !getStatus c CARRY
    else if condition = 4 then !getStatus c NEGATIVE
    else if condition = 5 then Bool.xor (getStatus c NEGATIVE) (getStatus c OVERFLOW)
    else if condition = 6 then !(Bool.xor (getStatus c NEGATIVE) (getStatus c OVERFLOW))
    else false
  if skip then c
  else setRegisterWord c 0 ((((c.pc : Int) + offset * 2) % 65536).toNat)

/-- Computer::_execute: classify by leading bits; the zero word is a
no-op. -/
def execute (c : Computer) (instruction : Nat) : Except ExecErr Computer :=
  if instruction >>> 10 = 4 then execute_single_operand c instruction
  else if instruction >>> 13 = 1 then .ok (execute_jump c instruction)
  else if instruction ≠ 0 then execute_double_operand c instruction
  else .ok c

/-- Computer::step: do nothing when CPUOFF is set, otherwise fetch at
the pc, advance the pc by 2 and dispatch. -/
def step (c : Computer) : Except ExecErr Computer :=
  if getStatus c CPUOFF then .ok c
  else
    let pc_w := c.pc
    let instruction := memGetWord c pc_w
    let c1 := setRegisterWord c 0 ((pc_w + 2) % 65536)
    execute c1 instruction

/-- Computer::interrupt: when GIE is set, push pc then sr, clear the
status register, and load the pc from the memory word at the vector. -/
def interrupt (c : Computer) (id : Nat) : Computer :=
  if getStatus c GIE then
    let c1 := push c c.pc false
    let c2 := push c1 c1.sr false
    let c3 := setRegisterWord c2 2 0
    setRegisterWord c3 0 (memGetWord c3 id)
  else c

/-- Computer::new: all registers and memory zero. -/
def computerNew : Computer :=
  { pc := 0, sp := 0, sr := 0, regs := fun _ => 0, mem := fun _ => 0 }

/-- Computer::reset: zero the memory and every register, which yields
the same all-zero state as construction. -/
def reset (_c : Computer) : Computer := computerNew

/-- The externally triggerable operations on one machine: a step, an
interrupt with a vector, or a reset. -/
inductive MachineEvent where
  | stepEv
  | interruptEv (vector : Nat)
  | resetEv

/-- Apply one machine event; a fatal step yields no successor state. -/
def applyEvent (c : Computer) : MachineEvent → Option Computer
  | .stepEv => (step c).toOption
  | .interruptEv v => some (interrupt c v)
  | .resetEv => some (reset c)

/-- The state after a sequence of events, starting from the all-zero
machine; events are listed most recent first. -/
def runEvents : List MachineEvent → Option Computer
  | [] => some computerNew
  | e :: rest =>
    match runEvents rest with
    | none => none
    | some c => applyEvent c e

/-! Basic arithmetic and bit-level lemmas about the model. -/

lemma pow16_eq : (65536 : Nat) = 2 ^ 16 := by norm_num

lemma and65535_eq_mod (x : Nat) : x &&& 65535 = x % 65536 := by
  have h : (65535 : Nat) = 2 ^ 16 - 1 := by norm_num
  rw [h, Nat.and_pow_two_sub_one_eq_mod, pow16_eq]

lemma and255_eq_mod (x : Nat) : x &&& 255 = x % 256 := by
  have h : (255 : Nat) = 2 ^ 8 - 1 := by norm_num
  rw [h, Nat.and_pow_two_sub_one_eq_mod]

lemma and3_eq_mod (x : Nat) : x &&& 3 = x % 4 := by
  have h : (3 : Nat) = 2 ^ 2 - 1 := by norm_num
  rw [h, Nat.and_pow_two_sub_one_eq_mod]

lemma and15_eq_mod (x : Nat) : x &&& 15 = x % 16 := by
  have h : (15 : Nat) = 2 ^ 4 - 1 := by norm_num
  rw [h, Nat.and_pow_two_sub_one_eq_mod]

lemma and7_eq_mod (x : Nat) : x &&& 7 = x % 8 := by
  have h : (7 : Nat) = 2 ^ 3 - 1 := by norm_num
  rw [h, Nat.and_pow_two_sub_one_eq_mod]

lemma and1_eq_mod (x : Nat) : x &&& 1 = x % 2 := Nat.and_one_is_mod x

lemma shiftRight_eq_div (x k : Nat) : x >>> k = x / 2 ^ k :=
  Nat.shiftRight_eq_div_pow x k

lemma testBit_65534 (i : Nat) :
    Nat.testBit 65534 i = (decide (i < 16) && decide (i ≠ 0)) := by
  have e : (65534 : Nat) = 65535 ^^^ 1 := by decide
  have e1 : (65535 : Nat) = 2 ^ 16 - 1 := by norm_num
  rw [e, Nat.testBit_xor, e1, Nat.testBit_two_pow_sub_one]
  by_cases h0 : i = 0
  · subst h0
    decide
  · have h1 : Nat.testBit 1 i = false :=
      Nat.testBit_lt_two_pow (by
        calc (1 : Nat) < 2 ^ 1 := by norm_num
        _ ≤ 2 ^ i := Nat.pow_le_pow_right (by norm_num) (by omega))
    rw [h1]
    by_cases h16 : i < 16 <;> simp [h0, h16]

lemma and65534_mod_two (x : Nat) : (x &&& 65534) % 2 = 0 := by
  have h : Nat.testBit (x &&& 65534) 0 = false := by
    rw [Nat.testBit_and, testBit_65534]
    simp
  rw [Nat.testBit_zero] at h
  rw [decide_eq_false_iff_not] at h
  omega

lemma and254_mod_two (x : Nat) : (x &&& 254) % 2 = 0 := by
  have h : Nat.testBit (x &&& 254) 0 = false := by
    rw [Nat.testBit_and]
    have h254 : Nat.testBit 254 0 = false := by decide
    simp [h254]
  rw [Nat.testBit_zero] at h
  rw [decide_eq_false_iff_not] at h
  omega

lemma and65534_self {x : Nat} (hx : x < 65536) (he : x % 2 = 0) :
    x &&& 65534 = x := by
  apply Nat.eq_of_testBit_eq
  intro i
  rw [Nat.testBit_and, testBit_65534]
  by_cases h0 : i = 0
  · subst h0
    simp [Nat.testBit_zero]
    omega
  · by_cases h16 : i < 16
    · simp [h0, h16]
    · have : Nat.testBit x i = false := by
        apply Nat.testBit_lt_two_pow
        calc x < 65536 := hx
        _ = 2 ^ 16 := pow16_eq
        _ ≤ 2 ^ i := Nat.pow_le_pow_right (by norm_num) (by omega)
      simp [this, h16]

lemma and65534_of_even {x : Nat} (he : x % 2 = 0) :
    (x % 65536) &&& 65534 = x % 65536 :=
  and65534_self (Nat.mod_lt _ (by norm_num)) (by omega)

/-! Projection lemmas: which state fields each operation touches. -/

@[simp] lemma setRegisterWord_mem (c : Computer) (id v : Nat) :
    (setRegisterWord c id v).mem = c.mem := by
  unfold setRegisterWord
  split_ifs <;> rfl

@[simp] lemma setRegisterByte_mem (c : Computer) (id v : Nat) :
    (setRegisterByte c id v).mem = c.mem := by
  unfold setRegisterByte
  split_ifs <;> rfl

lemma setRegisterWord_pc_ne (c : Computer) {id : Nat} (v : Nat) (h : id ≠ 0) :
    (setRegisterWord c id v).pc = c.pc := by
  unfold setRegisterWord
  split_ifs <;> first | rfl | omega

lemma setRegisterWord_sp_ne (c : Computer) {id : Nat} (v : Nat) (h : id ≠ 1) :
    (setRegisterWord c id v).sp = c.sp := by
  unfold setRegisterWord
  split_ifs <;> first | rfl | omega

lemma setRegisterWord_sr_ne (c : Computer) {id : Nat} (v : Nat) (h : id ≠ 2) :
    (setRegisterWord c id v).sr = c.sr := by
  unfold setRegisterWord
  split_ifs <;> first | rfl | omega

lemma setRegisterByte_pc_ne (c : Computer) {id : Nat} (v : Nat) (h : id ≠ 0) :
    (setRegisterByte c id v).pc = c.pc := by
  unfold setRegisterByte
  split_ifs <;> first | rfl | omega

lemma setRegisterByte_sp_ne (c : Computer) {id : Nat} (v : Nat) (h : id ≠ 1) :
    (setRegisterByte c id v).sp = c.sp := by
  unfold setRegisterByte
  split_ifs <;> first | rfl | omega

lemma setRegisterByte_sr_ne (c : Computer) {id : Nat} (v : Nat) (h : id ≠ 2) :
    (setRegisterByte c id v).sr = c.sr := by
  unfold setRegisterByte
  split_ifs <;> first | rfl | omega

@[simp] lemma setRegisterWord_zero_pc (c : Computer) (v : Nat) :
    (setRegisterWord c 0 v).pc = (v % 65536) &&& 65534 := rfl

@[simp] lemma setRegisterWord_zero_sp (c : Computer) (v : Nat) :
    (setRegisterWord c 0 v).sp = c.sp := rfl

@[simp] lemma setRegisterWord_zero_sr (c : Computer) (v : Nat) :
    (setRegisterWord c 0 v).sr = c.sr := rfl

@[simp] lemma setRegisterWord_zero_regs (c : Computer) (v : Nat) :
    (setRegisterWord c 0 v).regs = c.regs := rfl

@[simp] lemma setRegisterWord_one_sp (c : Computer) (v : Nat) :
    (setRegisterWord c 1 v).sp = (v % 65536) &&& 65534 := rfl

@[simp] lemma setRegisterWord_one_pc (c : Computer) (v : Nat) :
    (setRegisterWord c 1 v).pc = c.pc := rfl

@[simp] lemma setRegisterWord_one_sr (c : Computer) (v : Nat) :
    (setRegisterWord c 1 v).sr = c.sr := rfl

@[simp] lemma setRegisterWord_one_regs (c : Computer) (v : Nat) :
    (setRegisterWord c 1 v).regs = c.regs := rfl

@[simp] lemma setRegisterWord_two_sr (c : Computer) (v : Nat) :
    (setRegisterWord c 2 v).sr = v % 65536 := rfl

@[simp] lemma setRegisterWord_two_pc (c : Computer) (v : Nat) :
    (setRegisterWord c 2 v).pc = c.pc := rfl

@[simp] lemma setRegisterWord_two_sp (c : Computer) (v : Nat) :
    (setRegisterWord c 2 v).sp = c.sp := rfl

@[simp] lemma setRegisterWord_two_regs (c : Computer) (v : Nat) :
    (setRegisterWord c 2 v).regs = c.regs := rfl

@[simp] lemma memSetByte_pc (c : Computer) (i v : Nat) :
    (memSetByte c i v).pc = c.pc := rfl

@[simp] lemma memSetByte_sp (c : Computer) (i v : Nat) :
    (memSetByte c i v).sp = c.sp := rfl

@[simp] lemma memSetByte_sr (c : Computer) (i v : Nat) :
    (memSetByte c i v).sr = c.sr := rfl

@[simp] lemma memSetByte_regs (c : Computer) (i v : Nat) :
    (memSetByte c i v).regs = c.regs := rfl

@[simp] lemma memSetWord_pc (c : Computer) (i v : Nat) :
    (memSetWord c i v).pc = c.pc := rfl

@[simp] lemma memSetWord_sp (c : Computer) (i v : Nat) :
    (memSetWord c i v).sp = c.sp := rfl

@[simp] lemma memSetWord_sr (c : Computer) (i v : Nat) :
    (memSetWord c i v).sr = c.sr := rfl

@[simp] lemma memSetWord_regs (c : Computer) (i v : Nat) :
    (memSetWord c i v).regs = c.regs := rfl

@[simp] lemma setStatus_pc (c : Computer) (f : Nat) (b : Bool) :
    (setStatus c f b).pc = c.pc := by
  unfold setStatus
  split_ifs <;> rfl

@[simp] lemma setStatus_sp (c : Computer) (f : Nat) (b : Bool) :
    (setStatus c f b).sp = c.sp := by
  unfold setStatus
  split_ifs <;> rfl

@[simp] lemma setStatus_mem (c : Computer) (f : Nat) (b : Bool) :
    (setStatus c f b).mem = c.mem := by
  unfold setStatus
  split_ifs <;> rfl

@[simp] lemma setStatus_regs (c : Computer) (f : Nat) (b : Bool) :
    (setStatus c f b).regs = c.regs := by
  unfold setStatus
  split_ifs <;> rfl

@[simp] lemma set_flags_pc (c : Computer) (s p f d : Nat) (bw : Bool) :
    (set_flags c s p f d bw).pc = c.pc := by
  unfold set_flags
  simp

@[simp] lemma set_flags_sp (c : Computer) (s p f d : Nat) (bw : Bool) :
    (set_flags c s p f d bw).sp = c.sp := by
  unfold set_flags
  simp

@[simp] lemma set_flags_mem (c : Computer) (s p f d : Nat) (bw : Bool) :
    (set_flags c s p f d bw).mem = c.mem := by
  unfold set_flags
  simp

@[simp] lemma set_flags_regs (c : Computer) (s p f d : Nat) (bw : Bool) :
    (set_flags c s p f d bw).regs = c.regs := by
  unfold set_flags
  simp

/-! Status flag manipulation: the flag constants are single bits, and
setting one flag neither disturbs the others nor depends on them. -/

lemma getStatus_two_pow (c : Computer) (k : Nat) :
    getStatus c (2 ^ k) = c.sr.testBit k := by
  unfold getStatus
  rw [Nat.and_two_pow]
  cases h : c.sr.testBit k <;> simp [h]

lemma getStatus_setStatus_self (c : Computer) (b : Bool) (k : Nat) (hk : k < 16) :
    getStatus (setStatus c (2 ^ k) b) (2 ^ k) = b := by
  have e1 : (65535 : Nat) = 2 ^ 16 - 1 := by norm_num
  cases b
  · rw [setStatus, if_neg (by simp), getStatus_two_pow, setRegisterWord_two_sr,
      pow16_eq, Nat.testBit_mod_two_pow, Nat.testBit_and, Nat.testBit_xor, e1,
      Nat.testBit_two_pow_sub_one, Nat.testBit_two_pow]
    simp [hk]
  · rw [setStatus, if_pos (by simp), getStatus_two_pow, setRegisterWord_two_sr,
      pow16_eq, Nat.testBit_mod_two_pow, Nat.testBit_or, Nat.testBit_two_pow]
    simp [hk]

lemma getStatus_setStatus_other (c : Computer) (b : Bool) (j k : Nat)
    (hk : k < 16) (hne : j ≠ k) :
    getStatus (setStatus c (2 ^ j) b) (2 ^ k) = getStatus c (2 ^ k) := by
  have e1 : (65535 : Nat) = 2 ^ 16 - 1 := by norm_num
  cases b
  · rw [setStatus, if_neg (by simp), getStatus_two_pow, setRegisterWord_two_sr,
      pow16_eq, Nat.testBit_mod_two_pow, Nat.testBit_and, Nat.testBit_xor, e1,
      Nat.testBit_two_pow_sub_one, Nat.testBit_two_pow, getStatus_two_pow]
    simp [hk, hne]
  · rw [setStatus, if_pos (by simp), getStatus_two_pow, setRegisterWord_two_sr,
      pow16_eq, Nat.testBit_mod_two_pow, Nat.testBit_or, Nat.testBit_two_pow,
      getStatus_two_pow]
    simp [hk, hne]

lemma CARRY_eq : CARRY = 2 ^ 0 := rfl
lemma ZERO_eq : ZERO = 2 ^ 1 := rfl
lemma NEGATIVE_eq : NEGATIVE = 2 ^ 2 := rfl
lemma GIE_eq : GIE = 2 ^ 3 := rfl
lemma CPUOFF_eq : CPUOFF = 2 ^ 4 := rfl
lemma OVERFLOW_eq : OVERFLOW = 2 ^ 8 := rfl

lemma sign_bit_toNat (x k : Nat) : (x >>> k) &&& 1 = (x.testBit k).toNat := by
  rw [and1_eq_mod, shiftRight_eq_div, Nat.testBit_to_div_mod]
  rcases Nat.mod_two_eq_zero_or_one (x / 2 ^ k) with h | h <;> simp [h]

lemma sign_bit_eq_one (x k : Nat) :
    decide ((x >>> k) &&& 1 = 1) = x.testBit k := by
  rw [sign_bit_toNat]
  cases h : x.testBit k <;> simp

/-! The four flags produced by Computer::_set_flags, read back
individually. -/

lemma set_flags_zero (c : Computer) (src prev_dst full_dst dst : Nat)
    (bw : Bool) :
    getStatus (set_flags c src prev_dst full_dst dst bw) ZERO
      = decide (dst = 0) := by
  unfold set_flags
  rw [ZERO_eq, OVERFLOW_eq, CARRY_eq, NEGATIVE_eq,
    getStatus_setStatus_other _ _ 8 1 (by norm_num) (by norm_num),
    getStatus_setStatus_other _ _ 0 1 (by norm_num) (by norm_num),
    getStatus_setStatus_other _ _ 2 1 (by norm_num) (by norm_num),
    getStatus_setStatus_self _ _ 1 (by norm_num)]

lemma set_flags_negative (c : Computer) (src prev_dst full_dst dst : Nat)
    (bw : Bool) :
    getStatus (set_flags c src prev_dst full_dst dst bw) NEGATIVE
      = dst.testBit (if bw then 7 else 15) := by
  unfold set_flags
  rw [OVERFLOW_eq, CARRY_eq, NEGATIVE_eq,
    getStatus_setStatus_other _ _ 8 2 (by norm_num) (by norm_num),
    getStatus_setStatus_other _ _ 0 2 (by norm_num) (by norm_num),
    getStatus_setStatus_self _ _ 2 (by norm_num), sign_bit_eq_one]

lemma set_flags_carry (c : Computer) (src prev_dst full_dst dst : Nat)
    (bw : Bool) :
    getStatus (set_flags c src prev_dst full_dst dst bw) CARRY
      = decide ((if bw then 255 else 65535) < full_dst) := by
  unfold set_flags
  rw [OVERFLOW_eq, CARRY_eq,
    getStatus_setStatus_other _ _ 8 0 (by norm_num) (by norm_num),
    getStatus_setStatus_self _ _ 0 (by norm_num)]

lemma set_flags_overflow (c : Computer) (src prev_dst full_dst dst : Nat)
    (bw : Bool) :
    getStatus (set_flags c src prev_dst full_dst dst bw) OVERFLOW
      = (decide (prev_dst = (src >>> (if bw then 7 else 15)) &&& 1)
          && decide (prev_dst.testBit (if bw then 7 else 15)
            ≠ dst.testBit (if bw then 7 else 15))) := by
  unfold set_flags
  rw [OVERFLOW_eq, getStatus_setStatus_self _ _ 8 (by norm_num)]
  congr 1
  rw [sign_bit_toNat, sign_bit_toNat]
  cases h1 : prev_dst.testBit (if bw then 7 else 15) <;>
    cases h2 : dst.testBit (if bw then 7 else 15) <;> simp [h1, h2]

/-! Concrete machines used to exercise single instructions: registers
r5 and r6 (ids 5 and 6, slots 1 and 2) hold the two operands. -/

/-- A machine with r5 = a, r6 = b and everything else zero. -/
def testState (a b : Nat) : Computer :=
  { pc := 0
    sp := 0
    sr := 0
    regs := fun i => if i = 1 then a else if i = 2 then b else 0
    mem := fun _ => 0 }

/-- Every source addressing mode below 4 resolves without a fatal
condition. -/
lemma get_src_isOk (c : Computer) (r a : Nat) (bw : Bool) (ha : a < 4) :
    ∃ out, get_src c r a bw = .ok out := by
  unfold get_src
  split_ifs <;> first | exact ⟨_, rfl⟩ | omega

/-- C1: For the shared flag routine of the additive and subtractive
double-operand instructions (ADD, ADDC, SUB, SUBC, CMP), ZERO is set
exactly when the truncated result is 0, NEGATIVE is the sign bit of the
truncated result (bit 7 in byte mode, bit 15 in word mode), CARRY is
set exactly when the full untruncated result exceeds 0xFF resp. 0xFFFF,
and OVERFLOW is set exactly when the previous destination raw value
equals the single extracted source sign bit and the previous and new
destination sign bits differ; in particular word-mode ADD of 1 (r5)
into 0xFFFF (r6), instruction 0x5506, yields destination 0 with CARRY
true, ZERO true, NEGATIVE false and OVERFLOW false. -/
theorem claim1_arith_flags :
    (∀ (c : Computer) (src prev_dst full_dst dst : Nat) (bw : Bool),
      getStatus (set_flags c src prev_dst full_dst dst bw) ZERO
        = decide (dst = 0) ∧
      getStatus (set_flags c src prev_dst full_dst dst bw) NEGATIVE
        = dst.testBit (if bw then 7 else 15) ∧
      getStatus (set_flags c src prev_dst full_dst dst bw) CARRY
        = decide ((if bw then 255 else 65535) < full_dst) ∧
      getStatus (set_flags c src prev_dst full_dst dst bw) OVERFLOW
        = (decide (prev_dst = (src >>> (if bw then 7 else 15)) &&& 1)
            && decide (prev_dst.testBit (if bw then 7 else 15)
              ≠ dst.testBit (if bw then 7 else 15)))) ∧
    (execute_double_operand (testState 1 65535) 21766).map
        (fun x => (getRegister x 6, getStatus x CARRY, getStatus x ZERO,
          getStatus x NEGATIVE, getStatus x OVERFLOW))
      = .ok (0, true, true, false, false) := by
  constructor
  · intro c src prev_dst full_dst dst bw
    exact ⟨set_flags_zero c src prev_dst full_dst dst bw,
      set_flags_negative c src prev_dst full_dst dst bw,
      set_flags_carry c src prev_dst full_dst dst bw,
      set_flags_overflow c src prev_dst full_dst dst bw⟩
  · rfl

/-- C3 fails as stated: with destination 1 (r6) and source 0xFFFF (r5),
word-mode SUB (instruction 0x8506, r6 := r6 - r5) produces 2, not
0xFFFE: 1 - 0xFFFF wraps to 2 in two's complement. -/
theorem claim3_counterexample :
    (execute_double_operand (testState 65535 1) 34054).map
        (fun x => getRegister x 6) = .ok 2 ∧ (2 : Nat) ≠ 65534 := by
  constructor
  · rfl
  · decide

/-- C3 (amended): word-mode SUB computes destination minus source with
two's complement wraparound: 3 - 1 yields 2, 0xFFFF - 1 yields 0xFFFE,
and 1 - 0xFFFF yields 2 (instruction 0x8506 is SUB r5 r6, computing
r6 := r6 - r5). -/
theorem claim3_sub_wraparound :
    (execute_double_operand (testState 1 3) 34054).map
        (fun x => getRegister x 6) = .ok 2 ∧
    (execute_double_operand (testState 1 65535) 34054).map
        (fun x => getRegister x 6) = .ok 65534 ∧
    (execute_double_operand (testState 65535 1) 34054).map
        (fun x => getRegister x 6) = .ok 2 := by
  refine ⟨rfl, rfl, rfl⟩

/-- C9: any instruction whose top nibble decodes to DADD is fatal with
the distinct unimplemented-DADD condition, for every machine state and
every operand combination, and that condition differs from the decode
errors. -/
theorem claim9_dadd_fatal (c : Computer) (instruction : Nat)
    (hlt : instruction < 65536) (hop : instruction >>> 12 = 10) :
    execute c instruction = .error .unimplementedDADD ∧
    ExecErr.unimplementedDADD ≠ ExecErr.invalidDoubleOpcode ∧
    ExecErr.unimplementedDADD ≠ ExecErr.invalidSingleOpcode ∧
    ExecErr.unimplementedDADD ≠ ExecErr.impossibleAddressingMode := by
  refine ⟨?_, by decide, by decide, by decide⟩
  have h12 : instruction / 4096 = 10 := by
    rw [shiftRight_eq_div] at hop
    norm_num at hop
    exact hop
  have h10 : ¬ (instruction >>> 10 = 4) := by
    rw [shiftRight_eq_div]
    norm_num
    omega
  have h13 : ¬ (instruction >>> 13 = 1) := by
    rw [shiftRight_eq_div]
    norm_num
    omega
  have hne : instruction ≠ 0 := by omega
  rw [execute, if_neg h10, if_neg h13, if_pos hne]
  obtain ⟨⟨v, wt, c0⟩, hok⟩ := get_src_isOk c ((instruction >>> 8) &&& 15)
      ((instruction >>> 4) &&& 3) (decide ((instruction >>> 6) &&& 1 = 1))
      (by rw [and3_eq_mod]; omega)
  rw [execute_double_operand, hok]
  have hopc : (instruction >>> 12) &&& 15 = 10 := by
    rw [hop]
    decide
  simp [hopc]

/-- C9 witness: the DADD instruction 0xA506 on the all-zero machine is
the distinctly signalled unimplemented condition. -/
theorem claim9_dadd_fatal_witness :
    execute computerNew 42246 = .error .unimplementedDADD :=
  (claim9_dadd_fatal computerNew 42246 (by norm_num) (by decide)).1

/-- C5: a source resolution with register 3 (any mode below 4) or
register 2 with mode above 1 yields the fixed literal of the table,
a void write target, and the machine state unchanged. -/
theorem claim5_constant_generator (c : Computer) (src_reg as_ : Nat) (bw : Bool)
    (h : (src_reg = 3 ∧ as_ < 4) ∨ (src_reg = 2 ∧ (as_ = 2 ∨ as_ = 3))) :
    get_src c src_reg as_ bw
      = .ok ((if src_reg = 3 then
            (if as_ = 0 then 0 else if as_ = 1 then 1 else if as_ = 2 then 2
              else (if bw then 255 else 65535))
          else (if as_ = 2 then 4 else 8)), .void, c) := by
  rcases h with ⟨h3, ha⟩ | ⟨h2, ha⟩
  · subst h3
    interval_cases as_ <;> simp [get_src]
  · subst h2
    rcases ha with h | h <;> subst h <;> simp [get_src]

/-- C5 witness: register 3 in mode 3, word mode, on the all-zero
machine resolves to the literal 0xFFFF with no write target. -/
theorem claim5_constant_generator_witness :
    get_src computerNew 3 3 false = .ok (65535, .void, computerNew) := by
  have h := claim5_constant_generator computerNew 3 3 false (Or.inl ⟨rfl, by omega⟩)
  simpa using h

/-- Reading back a register just written with a 16-bit value returns
that value, except for the status register and constant generator; for
the pc and sp the value must be even. -/
lemma getRegister_setRegisterWord_self (c : Computer) (id v : Nat)
    (h2 : id ≠ 2) (h3 : id ≠ 3) (hv : v < 65536)
    (hev : id = 0 ∨ id = 1 → v % 2 = 0) :
    getRegister (setRegisterWord c id v) id = v := by
  by_cases h0 : id = 0
  · subst h0
    simp [getRegister, setRegisterWord, Nat.mod_eq_of_lt hv,
      and65534_self hv (hev (Or.inl rfl))]
  · by_cases h1 : id = 1
    · subst h1
      simp [getRegister, setRegisterWord, Nat.mod_eq_of_lt hv,
        and65534_self hv (hev (Or.inr rfl))]
    · simp [getRegister, setRegisterWord, h0, h1, h2, h3, Nat.mod_eq_of_lt hv]

/-- C6: source mode 3 with a register other than 2 and 3 reads memory
at the pre-increment register value, produces that address as write
target, and increments the register by 2 in word mode and by 1 in byte
mode, except that byte mode on the pc or sp (registers 0 and 1)
increments by 2 so they stay word aligned. -/
theorem claim6_autoincrement (c : Computer) (src_reg : Nat) (bw : Bool)
    (h2 : src_reg ≠ 2) (h3 : src_reg ≠ 3)
    (hreg : getRegister c src_reg < 65536)
    (heven : src_reg = 0 ∨ src_reg = 1 → getRegister c src_reg % 2 = 0) :
    get_src c src_reg 3 bw
      = .ok ((if bw then memGetByte c (getRegister c src_reg)
            else memGetWord c (getRegister c src_reg)),
          .memory (getRegister c src_reg),
          setRegisterWord c src_reg ((getRegister c src_reg
            + (if bw then (if src_reg = 0 ∨ src_reg = 1 then 2 else 1) else 2))
            % 65536)) ∧
    getRegister (setRegisterWord c src_reg ((getRegister c src_reg
        + (if bw then (if src_reg = 0 ∨ src_reg = 1 then 2 else 1) else 2))
        % 65536)) src_reg
      = (getRegister c src_reg
          + (if bw then (if src_reg = 0 ∨ src_reg = 1 then 2 else 1) else 2))
          % 65536 := by
  constructor
  · by_cases h01 : src_reg = 0 ∨ src_reg = 1
    · cases bw <;> simp [get_src, h2, h3, h01, Nat.add_assoc]
    · cases bw <;> simp [get_src, h2, h3, h01, Nat.add_assoc]
  · apply getRegister_setRegisterWord_self c src_reg _ h2 h3
      (Nat.mod_lt _ (by norm_num))
    intro h01
    have hev := heven h01
    have hinc : (if bw then (if src_reg = 0 ∨ src_reg = 1 then 2 else 1) else 2)
        = 2 := by
      cases bw <;> simp [h01]
    rw [hinc]
    omega

/-- C6 witness: word-mode autoincrement resolution on register 5
holding 0x1234 in a concrete machine. -/
theorem claim6_autoincrement_witness :
    get_src (testState 4660 0) 5 3 false
      = .ok (memGetWord (testState 4660 0) (getRegister (testState 4660 0) 5),
          .memory (getRegister (testState 4660 0) 5),
          setRegisterWord (testState 4660 0) 5
            ((getRegister (testState 4660 0) 5 + 2) % 65536)) ∧
    getRegister (setRegisterWord (testState 4660 0) 5
        ((getRegister (testState 4660 0) 5 + 2) % 65536)) 5
      = (getRegister (testState 4660 0) 5 + 2) % 65536 := by
  have h := claim6_autoincrement (testState 4660 0) 5 false (by decide) (by decide)
    (by decide) (by decide)
  simpa using h

/-- A machine with an even pc used to exercise jumps. -/
def jumpState : Computer :=
  { pc := 1000
    sp := 0
    sr := 0
    regs := fun _ => 0
    mem := fun _ => 0 }

/-- Writing an even 16-bit value to the pc register stores it
unchanged. -/
lemma setRegisterWord_zero_eq (c : Computer) (v : Nat) (hv : v < 65536)
    (he : v % 2 = 0) :
    setRegisterWord c 0 v = { c with pc := v } := by
  simp [setRegisterWord, Nat.mod_eq_of_lt hv, and65534_self hv he]

/-- C4: the raw 10-bit jump offset is reinterpreted as negative by
subtracting 1024 exactly when strictly greater than 512; the eight
condition codes skip exactly as listed (0 when ZERO set, 1 when ZERO
clear, 2 when CARRY set, 3 when CARRY clear, 4 when NEGATIVE clear, 5
when NEGATIVE xor OVERFLOW, 6 when not that, 7 never); a skipped jump
leaves the state unchanged and an unskipped jump adds twice the offset
to the pc modulo 2 to the 16. -/
theorem claim4_jump (c : Computer) (instruction : Nat) (heven : c.pc % 2 = 0) :
    ((if (instruction >>> 10) &&& 7 = 0 then getStatus c ZERO
      else if (instruction >>> 10) &&& 7 = 1 then !getStatus c ZERO
      else if (instruction >>> 10) &&& 7 = 2 then getStatus c CARRY
      else if (instruction >>> 10) &&& 7 = 3 then !getStatus c CARRY
      else if (instruction >>> 10) &&& 7 = 4 then !getStatus c NEGATIVE
      else if (instruction >>> 10) &&& 7 = 5 then
        Bool.xor (getStatus c NEGATIVE) (getStatus c OVERFLOW)
      else if (instruction >>> 10) &&& 7 = 6 then
        !(Bool.xor (getStatus c NEGATIVE) (getStatus c OVERFLOW))
      else false) = true → execute_jump c instruction = c) ∧
    ((if (instruction >>> 10) &&& 7 = 0 then getStatus c ZERO
      else if (instruction >>> 10) &&& 7 = 1 then !getStatus c ZERO
      else if (instruction >>> 10) &&& 7 = 2 then getStatus c CARRY
      else if (instruction >>> 10) &&& 7 = 3 then !getStatus c CARRY
      else if (instruction >>> 10) &&& 7 = 4 then !getStatus c NEGATIVE
      else if (instruction >>> 10) &&& 7 = 5 then
        Bool.xor (getStatus c NEGATIVE) (getStatus c OVERFLOW)
      else if (instruction >>> 10) &&& 7 = 6 then
        !(Bool.xor (getStatus c NEGATIVE) (getStatus c OVERFLOW))
      else false) = false →
      execute_jump c instruction
        = { c with pc := (((c.pc : Int)
            + (if 512 < instruction &&& 1023
               then ((instruction &&& 1023 : Nat) : Int) - 1024
               else ((instruction &&& 1023 : Nat) : Int)) * 2) % 65536).toNat }) := by
  constructor
  · intro h
    simp only [execute_jump]
    rw [h]
    simp
  · intro h
    simp only [execute_jump]
    rw [h]
    simp only [Bool.false_eq_true, if_false]
    by_cases h512 : 512 < instruction &&& 1023
    · simp only [if_pos h512]
      rw [setRegisterWord_zero_eq _ _ (by omega) (by omega)]
    · simp only [if_neg h512]
      rw [setRegisterWord_zero_eq _ _ (by omega) (by omega)]

/-- C4 witness: an unconditional jump (condition 7) with raw offset 600
(reinterpreted as -424) from pc 1000 lands on pc 152. -/
theorem claim4_jump_witness :
    execute_jump jumpState 15960 = { jumpState with pc := 152 } :=
  (claim4_jump jumpState 15960 (by decide)).2 (by decide)

/-- The successor state of a successful source resolution keeps the
status register unchanged. -/
lemma get_src_sr (c : Computer) (r a : Nat) (bw : Bool)
    (out : Nat × WriteTargets × Computer)
    (h : get_src c r a bw = .ok out) : out.2.2.sr = c.sr := by
  unfold get_src at h
  split_ifs at h <;>
    first
      | exact Except.noConfusion h
      | (simp only [Except.ok.injEq] at h
         subst h
         first
           | rfl
           | exact setRegisterWord_sr_ne c _ (by omega))

/-- C7 fails as stated: MOV r5 r2 (instruction 0x4502) writes the
source value into the status register, so with r5 = 1 and all flags
clear the CARRY flag becomes set. -/
theorem claim7_counterexample :
    (execute_double_operand (testState 1 0) 17666).map (fun x => x.sr)
      = .ok 1 ∧
    (testState 1 0).sr = 0 ∧
    (execute_double_operand (testState 1 0) 17666).map
        (fun x => getStatus x CARRY) = .ok true ∧
    getStatus (testState 1 0) CARRY = false := by
  exact ⟨rfl, rfl, rfl, rfl⟩

/-- C7 (amended): executing any MOV instruction leaves the status
flags unchanged, unless the destination operand is the status register
itself (register-mode destination with register id 2), in which case
the destination write replaces the flag word with the source value. -/
theorem claim7_mov_flags (c : Computer) (instruction : Nat)
    (hmov : (instruction >>> 12) &&& 15 = 4)
    (hdst : ¬((instruction >>> 7) &&& 1 = 0 ∧ instruction &&& 15 = 2)) :
    (execute_double_operand c instruction).map (fun x => x.sr) = .ok c.sr := by
  obtain ⟨⟨v, wt0, c0⟩, hok⟩ := get_src_isOk c ((instruction >>> 8) &&& 15)
      ((instruction >>> 4) &&& 3) (decide ((instruction >>> 6) &&& 1 = 1))
      (by rw [and3_eq_mod]; omega)
  have hsr0 : c0.sr = c.sr := get_src_sr _ _ _ _ _ hok
  rw [execute_double_operand, hok]
  simp only [resolveDst]
  simp only [hmov]
  norm_num
  rw [and1_eq_mod] at hdst
  by_cases had : instruction >>> 7 % 2 = 0
  · have hne2 : instruction &&& 15 ≠ 2 := fun hc => hdst ⟨had, hc⟩
    have hA : ∀ w, (setRegisterByte c0 (instruction &&& 15) w).sr = c0.sr :=
      fun w => setRegisterByte_sr_ne c0 w hne2
    have hB : ∀ w, (setRegisterWord c0 (instruction &&& 15) w).sr = c0.sr :=
      fun w => setRegisterWord_sr_ne c0 w hne2
    cases hbw : instruction.testBit 6 <;>
      simp [had, hbw, Except.map, writeTargetSetByte, writeTargetSetWord,
        hA, hB, hsr0]
  · cases hbw : instruction.testBit 6 <;>
      simp [had, hbw, Except.map, writeTargetSetByte, writeTargetSetWord, hsr0]

/-- C7 witness: MOV r5 r6 (instruction 0x4506) on a machine with all
flags clear leaves the status register unchanged. -/
theorem claim7_mov_flags_witness :
    (execute_double_operand (testState 1 0) 17670).map (fun x => x.sr)
      = .ok (testState 1 0).sr :=
  claim7_mov_flags (testState 1 0) 17670 (by decide) (by decide)

/-- C10 fails as stated: a byte-mode PUSH from sp = 0 stores sp =
0xFFFC but writes the byte at 0xFFFE, which is new-sp + 2; the byte at
new-sp + 1 = 0xFFFD stays 0. -/
theorem claim10_counterexample :
    (push computerNew 171 true).sp = 65532 ∧
    (push computerNew 171 true).mem 65533 = 0 ∧
    (push computerNew 171 true).mem 65534 = 171 ∧
    (171 : Nat) % 256 ≠ 0 := by
  exact ⟨rfl, rfl, rfl, by decide⟩

/-- C10 (amended): from any state whose 16-bit sp is even and at least
2, a byte-mode PUSH decrements sp by 2 and writes exactly one memory
byte, the low byte of the value at new-sp + 1, leaving the byte at
new-sp and every other cell unchanged, and touching no other state; a
word-mode PUSH writes the full word at new-sp.  When sp is 0 the wrap
path stores sp = 0xFFFC but writes relative to the internal odd value
0xFFFD, so the byte lands at new-sp + 2. -/
theorem claim10_push_byte (c : Computer) (v : Nat)
    (hsp : c.sp < 65536) (he : c.sp % 2 = 0) (h2 : 2 ≤ c.sp) :
    (push c v true).sp = c.sp - 2 ∧
    (push c v true).mem (c.sp - 1) = v % 256 ∧
    (∀ a, a ≠ c.sp - 1 → (push c v true).mem a = c.mem a) ∧
    (push c v true).pc = c.pc ∧
    (push c v true).sr = c.sr ∧
    (push c v true).regs = c.regs ∧
    (push c v false).sp = c.sp - 2 ∧
    memGetWord (push c v false) (c.sp - 2) = v % 65536 := by
  have hn1 : ¬ (c.sp ≤ 1) := by omega
  have hsp2 : (c.sp - 2) % 65536 = c.sp - 2 := Nat.mod_eq_of_lt (by omega)
  have hsp2e : (c.sp - 2) % 2 = 0 := by omega
  have hmask : ((c.sp - 2) % 65536) &&& 65534 = c.sp - 2 := by
    rw [hsp2]
    exact and65534_self (by omega) hsp2e
  refine ⟨?_, ?_, ?_, ?_, ?_, ?_, ?_, ?_⟩
  · simp [push, hn1, hmask]
  · simp only [push, hn1, if_false, reduceIte, if_true]
    simp [memSetByte, Nat.mod_eq_of_lt (show c.sp - 2 + 1 < 65536 by omega),
      and255_eq_mod]
    omega
  · intro a ha
    simp only [push, hn1, reduceIte]
    simp [memSetByte]
    intro hc
    exfalso
    apply ha
    omega
  · simp [push, hn1]
  · simp [push, hn1]
  · simp [push, hn1]
  · simp [push, hn1, hmask]
  · simp only [push, hn1, reduceIte]
    rw [memGetWord]
    have h8 : v >>> 8 = v / 256 := by
      rw [shiftRight_eq_div]
      norm_num
    simp [memSetWord, memSetByte, h8, and255_eq_mod,
      Nat.mod_eq_of_lt (show c.sp - 2 < 65536 by omega),
      Nat.mod_eq_of_lt (show c.sp - 2 + 1 < 65536 by omega)]
    omega

/-- A machine with sp = 0x4400 used to exercise pushes. -/
def pushState : Computer :=
  { pc := 0
    sp := 17408
    sr := 0
    regs := fun _ => 0
    mem := fun _ => 0 }

/-- C10 witness: byte-mode PUSH of 0xAB from sp = 0x4400 writes the
byte at 0x43FF = new-sp + 1 only. -/
theorem claim10_push_byte_witness :
    (push pushState 171 true).sp = 17406 ∧
    (push pushState 171 true).mem 17407 = 171 ∧
    (push pushState 171 true).mem 17404 = 0 := by
  have h := claim10_push_byte pushState 171 (by decide) (by decide) (by decide)
  exact ⟨h.1, by simpa using h.2.1, by simpa using h.2.2.1 17404 (by decide)⟩

/-! Fine-grained lemmas about memory and push, used for the interrupt
round trip. -/

lemma memSetByte_mem_ne (c : Computer) {i a : Nat} (v : Nat)
    (h : a ≠ i % 65536) :
    (memSetByte c i v).mem a = c.mem a := by
  simp [memSetByte, h]

lemma memSetByte_mem_eq (c : Computer) {i a : Nat} (v : Nat)
    (h : a = i % 65536) :
    (memSetByte c i v).mem a = v % 256 := by
  simp [memSetByte, h]

lemma mem_memSetWord_ne (c : Computer) {i a : Nat} (v : Nat)
    (h1 : a ≠ i % 65536) (h2 : a ≠ (i + 1) % 65536) :
    (memSetWord c i v).mem a = c.mem a := by
  unfold memSetWord
  rw [memSetByte_mem_ne _ _ h2, memSetByte_mem_ne _ _ h1]

lemma memGetWord_memSetWord_ne (c : Computer) {i j : Nat} (v : Nat)
    (h1 : j % 65536 ≠ i % 65536) (h2 : j % 65536 ≠ (i + 1) % 65536)
    (h3 : (j + 1) % 65536 ≠ i % 65536) (h4 : (j + 1) % 65536 ≠ (i + 1) % 65536) :
    memGetWord (memSetWord c i v) j = memGetWord c j := by
  unfold memGetWord
  rw [mem_memSetWord_ne c v h1 h2, mem_memSetWord_ne c v h3 h4]

lemma memGetWord_memSetWord_eq (c : Computer) (i v : Nat) (hi : i + 1 < 65536) :
    memGetWord (memSetWord c i v) i = v % 65536 := by
  have e1 : i % 65536 = i := Nat.mod_eq_of_lt (by omega)
  have e2 : (i + 1) % 65536 = i + 1 := Nat.mod_eq_of_lt hi
  have h8 : v >>> 8 = v / 256 := by
    rw [shiftRight_eq_div]
    norm_num
  unfold memGetWord memSetWord
  rw [memSetByte_mem_ne _ _ (by omega), memSetByte_mem_eq _ _ (by rw [e1]),
    memSetByte_mem_eq _ _ rfl]
  simp only [h8, and255_eq_mod]
  omega

@[simp] lemma memGetWord_setRegisterWord (c : Computer) (id v i : Nat) :
    memGetWord (setRegisterWord c id v) i = memGetWord c i := by
  unfold memGetWord
  rw [setRegisterWord_mem]

@[simp] lemma push_pc (c : Computer) (v : Nat) (bw : Bool) :
    (push c v bw).pc = c.pc := by
  unfold push
  cases bw <;> simp

@[simp] lemma push_sr (c : Computer) (v : Nat) (bw : Bool) :
    (push c v bw).sr = c.sr := by
  unfold push
  cases bw <;> simp

@[simp] lemma push_regs (c : Computer) (v : Nat) (bw : Bool) :
    (push c v bw).regs = c.regs := by
  unfold push
  cases bw <;> simp

lemma push_word_eq (c : Computer) (v : Nat) (h2 : 2 ≤ c.sp) :
    push c v false
      = memSetWord (setRegisterWord c 1 (c.sp - 2)) (c.sp - 2) v := by
  simp [push, show ¬ (c.sp ≤ 1) by omega]

lemma push_word_sp (c : Computer) (v : Nat) (h2 : 2 ≤ c.sp)
    (hlt : c.sp < 65536) (he : c.sp % 2 = 0) :
    (push c v false).sp = c.sp - 2 := by
  rw [push_word_eq c v h2]
  simp [Nat.mod_eq_of_lt (show c.sp - 2 < 65536 by omega),
    and65534_self (show c.sp - 2 < 65536 by omega) (by omega)]

lemma memGetWord_push_word_ne (c : Computer) (v j : Nat) (h2 : 2 ≤ c.sp)
    (hlt : c.sp < 65536) (hj : j ≤ 65534)
    (hd : j + 1 < c.sp - 2 ∨ (c.sp ≤ j ∧ j + 1 < 65536)) :
    memGetWord (push c v false) j = memGetWord c j := by
  rw [push_word_eq c v h2]
  rw [memGetWord_memSetWord_ne _ v (by omega) (by omega) (by omega) (by omega)]
  rw [memGetWord_setRegisterWord]

lemma memGetWord_push_word_eq (c : Computer) (v : Nat) (h2 : 2 ≤ c.sp)
    (hlt : c.sp < 65536) :
    memGetWord (push c v false) (c.sp - 2) = v % 65536 := by
  rw [push_word_eq c v h2, memGetWord_memSetWord_eq _ _ _ (by omega)]

/-- C2 (amended): for a well-formed machine (16-bit registers, even pc
and sp, byte-sized memory cells), when GIE is clear interrupt leaves
the state unchanged; when GIE is set and sp is at least 4 with the
vector word disjoint from the four pushed stack bytes, interrupt
pushes the pc at sp - 2 and then the sr at sp - 4, clears the whole
status register, and loads the pc from the memory word at the vector
address with bit 0 forced to zero; executing RETI (instruction 0x1303,
whose constant-generator source leaves a void write target) afterward
restores the exact pre-interrupt pc, sp and sr. -/
theorem claim2_interrupt_reti (c : Computer) (v : Nat)
    (hpc : c.pc < 65536) (hpce : c.pc % 2 = 0)
    (hsp : c.sp < 65536) (hspe : c.sp % 2 = 0)
    (hsr : c.sr < 65536) (hmem : ∀ a, c.mem a < 256)
    (hsp4 : 4 ≤ c.sp) (hv : v ≤ 65534)
    (hdisj : c.sp ≤ v ∨ v + 6 ≤ c.sp) :
    (getStatus c GIE = false → interrupt c v = c) ∧
    (getStatus c GIE = true →
      (interrupt c v).sr = 0 ∧
      (interrupt c v).sp = c.sp - 4 ∧
      memGetWord (interrupt c v) (c.sp - 2) = c.pc ∧
      memGetWord (interrupt c v) (c.sp - 4) = c.sr ∧
      (interrupt c v).pc = memGetWord c v &&& 65534 ∧
      (execute_single_operand (interrupt c v) 4867).map
          (fun x => (x.pc, x.sp, x.sr)) = .ok (c.pc, c.sp, c.sr)) := by
  constructor
  · intro h
    simp [interrupt, h]
  · intro hg
    have hP1sp : (push c c.pc false).sp = c.sp - 2 :=
      push_word_sp c c.pc (by omega) hsp hspe
    have hP1sr : (push c c.pc false).sr = c.sr := push_sr c c.pc false
    have hP2sp : (push (push c c.pc false) c.sr false).sp
        = c.sp - 4 := by
      rw [push_word_sp _ _ (by rw [hP1sp]; omega) (by rw [hP1sp]; omega)
        (by rw [hP1sp]; omega), hP1sp]
      omega
    have hMv : memGetWord (push (push c c.pc false) c.sr false) v
        = memGetWord c v := by
      rw [memGetWord_push_word_ne _ _ _ (by rw [hP1sp]; omega)
          (by rw [hP1sp]; omega) hv (by rw [hP1sp]; omega),
        memGetWord_push_word_ne _ _ _ (by omega) hsp hv (by omega)]
    have hMc2 : memGetWord (push (push c c.pc false) c.sr false) (c.sp - 2)
        = c.pc := by
      rw [memGetWord_push_word_ne _ _ _ (by rw [hP1sp]; omega)
          (by rw [hP1sp]; omega) (by omega) (by rw [hP1sp]; omega),
        memGetWord_push_word_eq c c.pc (by omega) hsp]
      omega
    have hMc4 : memGetWord (push (push c c.pc false) c.sr false) (c.sp - 4)
        = c.sr := by
      have h42 : c.sp - 4 = (push c c.pc false).sp - 2 := by
        rw [hP1sp]
        omega
      rw [h42, memGetWord_push_word_eq _ _ (by rw [hP1sp]; omega)
          (by rw [hP1sp]; omega)]
      omega
    have hword : memGetWord c v < 65536 := by
      unfold memGetWord
      have h1 := hmem (v % 65536)
      have h2 := hmem ((v + 1) % 65536)
      omega
    have hIeq : interrupt c v
        = setRegisterWord (setRegisterWord
            (push (push c c.pc false) c.sr false) 2 0) 0
            (memGetWord (setRegisterWord
              (push (push c c.pc false) c.sr false) 2 0) v) := by
      simp only [interrupt, hg, reduceIte, push_sr]
    have hasr : (interrupt c v).sr = 0 := by
      rw [hIeq]
      simp
    have hbsp : (interrupt c v).sp = c.sp - 4 := by
      rw [hIeq]
      simp [hP2sp]
    have hcge : memGetWord (interrupt c v) (c.sp - 2) = c.pc := by
      rw [hIeq, memGetWord_setRegisterWord, memGetWord_setRegisterWord]
      exact hMc2
    have hdge : memGetWord (interrupt c v) (c.sp - 4) = c.sr := by
      rw [hIeq, memGetWord_setRegisterWord, memGetWord_setRegisterWord]
      exact hMc4
    have hepc : (interrupt c v).pc = memGetWord c v &&& 65534 := by
      rw [hIeq]
      simp only [setRegisterWord_zero_pc, memGetWord_setRegisterWord, hMv]
      rw [Nat.mod_eq_of_lt hword]
    refine ⟨hasr, hbsp, hcge, hdge, hepc, ?_⟩
    have hgs : get_src (interrupt c v) 3 0 false
        = .ok (0, .void, interrupt c v) := by
      simp [get_src]
    have hcalc1 : (c.sp - 4 + 2) % 65536 &&& 65534 = c.sp - 2 := by
      rw [show (c.sp - 4 + 2) % 65536 = c.sp - 2 by omega]
      exact and65534_self (by omega) (by omega)
    have hcalc2 : (c.sp - 2 + 2) % 65536 &&& 65534 = c.sp := by
      rw [show (c.sp - 2 + 2) % 65536 = c.sp by omega]
      exact and65534_self hsp hspe
    have hcalc3 : c.pc % 65536 &&& 65534 = c.pc := by
      rw [Nat.mod_eq_of_lt hpc]
      exact and65534_self hpc hpce
    have hcalc4 : c.sr % 65536 = c.sr := Nat.mod_eq_of_lt hsr
    have e1 : (4867 : Nat) &&& 15 = 3 := by decide
    have e2 : ((4867 : Nat) >>> 4) &&& 3 = 0 := by decide
    have e3 : decide (((4867 : Nat) >>> 6) &&& 1 = 1) = false := by decide
    have e4 : ((4867 : Nat) >>> 7) &&& 7 = 6 := by decide
    rw [execute_single_operand]
    rw [e1, e2, e3, e4, hgs]
    simp [Except.map, writeTargetSetWord, hbsp, hdge, hcge, hcalc1, hcalc2,
      hcalc3, hcalc4]

/-- A well-formed machine with GIE set, pc 0x100, sp 0x4400, and the
interrupt vector word 0x1234 stored at address 16. -/
def c2good : Computer :=
  { pc := 256
    sp := 17408
    sr := 8
    regs := fun _ => 0
    mem := fun a => if a = 16 then 18 else if a = 17 then 52 else 0 }

/-- C2 witness: from the concrete machine c2good, the interrupt at
vector 16 followed by RETI restores pc 0x100, sp 0x4400 and sr 8. -/
theorem claim2_interrupt_reti_witness :
    (execute_single_operand (interrupt c2good 16) 4867).map
        (fun x => (x.pc, x.sp, x.sr)) = .ok (256, 17408, 8) :=
  ((claim2_interrupt_reti c2good 16 (by decide) (by decide) (by decide)
      (by decide) (by decide)
      (fun a => by unfold c2good; dsimp only; split_ifs <;> decide)
      (by decide) (by decide) (Or.inr (by decide))).2 (by decide)).2.2.2.2.2

/-- A machine with GIE set whose interrupt vector word at address 16 is
the odd value 1. -/
def c2oddVector : Computer :=
  { pc := 256
    sp := 17408
    sr := 8
    regs := fun _ => 0
    mem := fun a => if a = 17 then 1 else 0 }

/-- A machine with GIE set and sp = 2, whose vector word at address 16
is 0x200. -/
def c2lowStack : Computer :=
  { pc := 256
    sp := 2
    sr := 8
    regs := fun _ => 0
    mem := fun a => if a = 16 then 2 else 0 }

/-- C2 fails as stated: with GIE set and an odd vector word, the loaded
pc is the word with bit 0 cleared, not the word itself; and with GIE
set and sp = 2, the push wraparound corrupts the saved context, so the
RETI pop sequence afterward restores neither the pre-interrupt pc nor
the pre-interrupt sr. -/
theorem claim2_counterexample :
    (getStatus c2oddVector GIE = true ∧
      memGetWord c2oddVector 16 = 1 ∧
      (interrupt c2oddVector 16).pc = 0 ∧ (0 : Nat) ≠ 1) ∧
    (getStatus c2lowStack GIE = true ∧
      (execute_single_operand (interrupt c2lowStack 16) 4867).map
          (fun x => (x.pc, x.sr)) = .ok (2048, 0) ∧
      c2lowStack.pc = 256 ∧ c2lowStack.sr = 8 ∧
      ((2048 : Nat), (0 : Nat)) ≠ ((256 : Nat), (8 : Nat))) := by
  exact ⟨⟨rfl, rfl, rfl, by decide⟩, ⟨rfl, rfl, rfl, rfl, by decide⟩⟩

/-! Word alignment of pc and sp: every operation of the machine keeps
both even, because every write to registers 0 and 1 masks bit 0. -/

/-- The pc and sp hold even values. -/
def EvenInv (c : Computer) : Prop := c.pc % 2 = 0 ∧ c.sp % 2 = 0

lemma evenInv_setRegisterWord {c : Computer} (id v : Nat) (h : EvenInv c) :
    EvenInv (setRegisterWord c id v) := by
  obtain ⟨h1, h2⟩ := h
  unfold EvenInv setRegisterWord
  split_ifs <;> simp_all [and65534_mod_two]

lemma evenInv_setRegisterByte {c : Computer} (id v : Nat) (h : EvenInv c) :
    EvenInv (setRegisterByte c id v) := by
  obtain ⟨h1, h2⟩ := h
  unfold EvenInv setRegisterByte
  split_ifs <;> simp_all [and254_mod_two]

lemma evenInv_memSetByte {c : Computer} (i v : Nat) (h : EvenInv c) :
    EvenInv (memSetByte c i v) := by
  unfold EvenInv at h ⊢
  simpa using h

lemma evenInv_memSetWord {c : Computer} (i v : Nat) (h : EvenInv c) :
    EvenInv (memSetWord c i v) := by
  unfold EvenInv at h ⊢
  simpa using h

lemma evenInv_setStatus {c : Computer} (f : Nat) (b : Bool) (h : EvenInv c) :
    EvenInv (setStatus c f b) := by
  unfold EvenInv at h ⊢
  simpa using h

lemma evenInv_set_flags {c : Computer} (s p f d : Nat) (bw : Bool)
    (h : EvenInv c) : EvenInv (set_flags c s p f d bw) := by
  unfold EvenInv at h ⊢
  simpa using h

lemma evenInv_push {c : Computer} (v : Nat) (bw : Bool) (h : EvenInv c) :
    EvenInv (push c v bw) := by
  unfold push
  cases bw
  · exact evenInv_memSetWord _ _ (evenInv_setRegisterWord _ _ h)
  · exact evenInv_memSetByte _ _ (evenInv_setRegisterWord _ _ h)

lemma evenInv_writeTargetSetWord (wt : WriteTargets) {c : Computer} (v : Nat)
    (h : EvenInv c) : EvenInv (writeTargetSetWord wt v c) := by
  cases wt with
  | void => exact h
  | register r => exact evenInv_setRegisterWord _ _ h
  | memory a => exact evenInv_memSetWord _ _ h

lemma evenInv_writeTargetSetByte (wt : WriteTargets) {c : Computer} (v : Nat)
    (h : EvenInv c) : EvenInv (writeTargetSetByte wt v c) := by
  cases wt with
  | void => exact h
  | register r => exact evenInv_setRegisterByte _ _ h
  | memory a => exact evenInv_memSetByte _ _ h

lemma evenInv_get_src {c : Computer} (r a : Nat) (bw : Bool)
    (out : Nat × WriteTargets × Computer)
    (h : get_src c r a bw = .ok out) (hc : EvenInv c) : EvenInv out.2.2 := by
  unfold get_src at h
  split_ifs at h <;>
    first
      | exact Except.noConfusion h
      | (simp only [Except.ok.injEq] at h
         subst h
         first
           | exact hc
           | exact evenInv_setRegisterWord _ _ hc)

lemma evenInv_execute_jump {c : Computer} (i : Nat) (hc : EvenInv c) :
    EvenInv (execute_jump c i) := by
  simp only [execute_jump]
  split_ifs <;> first | exact hc | exact evenInv_setRegisterWord _ _ hc

lemma evenInv_execute_single_operand {c c' : Computer} {i : Nat}
    (h : execute_single_operand c i = .ok c') (hc : EvenInv c) :
    EvenInv c' := by
  rw [execute_single_operand] at h
  cases hca : get_src c (i &&& 15) ((i >>> 4) &&& 3)
      (decide ((i >>> 6) &&& 1 = 1)) with
  | error e =>
    rw [hca] at h
    simp at h
  | ok out =>
    obtain ⟨v, wt, c0⟩ := out
    have hc0 : EvenInv c0 := evenInv_get_src _ _ _ _ hca hc
    rw [hca] at h
    split_ifs at h <;>
      (try simp only [Except.ok.injEq] at h) <;>
      (try split_ifs at h) <;>
      (try simp only [Except.ok.injEq] at h) <;>
      first
        | (exfalso; assumption)
        | (exfalso; exact Bool.false_ne_true (by assumption))
        | (subst h
           repeat
             first
               | exact hc0
               | apply evenInv_writeTargetSetWord
               | apply evenInv_writeTargetSetByte
               | apply evenInv_setStatus
               | apply evenInv_push
               | apply evenInv_memSetWord
               | apply evenInv_memSetByte
               | apply evenInv_setRegisterWord
               | apply evenInv_setRegisterByte
               | apply evenInv_set_flags)
        | exact absurd h (by simp)

lemma evenInv_execute_double_operand {c c' : Computer} {i : Nat}
    (h : execute_double_operand c i = .ok c') (hc : EvenInv c) :
    EvenInv c' := by
  rw [execute_double_operand] at h
  cases hca : get_src c ((i >>> 8) &&& 15) ((i >>> 4) &&& 3)
      (decide ((i >>> 6) &&& 1 = 1)) with
  | error e =>
    rw [hca] at h
    simp at h
  | ok out =>
    obtain ⟨v, wt, c0⟩ := out
    have hc0 : EvenInv c0 := evenInv_get_src _ _ _ _ hca hc
    have hres : EvenInv (resolveDst c0 i).2.2 := by
      simp only [resolveDst]
      split_ifs <;> dsimp <;>
        first
          | exact hc0
          | exact evenInv_setRegisterWord _ _ hc0
    rw [hca] at h
    set op := (i >>> 12) &&& 15 with hop
    have hoplt : op < 16 := by
      rw [hop, and15_eq_mod]
      omega
    interval_cases op <;>
      norm_num at h <;>
      (try split_ifs at h) <;>
      (try simp only [Except.ok.injEq] at h) <;>
      first
        | (exfalso; assumption)
        | (exfalso; exact Bool.false_ne_true (by assumption))
        | (subst h
           repeat
             first
               | exact hres
               | exact hc0
               | apply evenInv_writeTargetSetWord
               | apply evenInv_writeTargetSetByte
               | apply evenInv_setStatus
               | apply evenInv_push
               | apply evenInv_memSetWord
               | apply evenInv_memSetByte
               | apply evenInv_setRegisterWord
               | apply evenInv_setRegisterByte
               | apply evenInv_set_flags)
        | exact absurd h (by simp)

lemma evenInv_execute {c c' : Computer} {i : Nat}
    (h : execute c i = .ok c') (hc : EvenInv c) : EvenInv c' := by
  unfold execute at h
  split_ifs at h
  · exact evenInv_execute_single_operand h hc
  · rw [Except.ok.injEq] at h
    subst h
    exact evenInv_execute_jump _ hc
  · exact evenInv_execute_double_operand h hc
  · rw [Except.ok.injEq] at h
    subst h
    exact hc

lemma evenInv_step {c c' : Computer} (h : step c = .ok c') (hc : EvenInv c) :
    EvenInv c' := by
  unfold step at h
  split_ifs at h
  · rw [Except.ok.injEq] at h
    subst h
    exact hc
  · exact evenInv_execute h (evenInv_setRegisterWord _ _ hc)

lemma evenInv_interrupt {c : Computer} (v : Nat) (hc : EvenInv c) :
    EvenInv (interrupt c v) := by
  unfold interrupt
  split_ifs
  · exact evenInv_setRegisterWord _ _ (evenInv_setRegisterWord _ _
      (evenInv_push _ _ (evenInv_push _ _ hc)))
  · exact hc

lemma evenInv_computerNew : EvenInv computerNew := ⟨rfl, rfl⟩

/-- C8: every word write to the pc or sp register forces bit 0 of the
stored word to zero, every byte write likewise masks the byte to an
even value, and consequently in every state reachable from the
all-zero machine by any sequence of steps, interrupts and resets the
pc and sp hold even values. -/
theorem claim8_word_alignment :
    (∀ (c : Computer) (v : Nat),
      (setRegisterWord c 0 v).pc % 2 = 0 ∧
      (setRegisterWord c 1 v).sp % 2 = 0 ∧
      (setRegisterByte c 0 v).pc % 2 = 0 ∧
      (setRegisterByte c 1 v).sp % 2 = 0) ∧
    (∀ (evs : List MachineEvent) (c : Computer),
      runEvents evs = some c → c.pc % 2 = 0 ∧ c.sp % 2 = 0) := by
  constructor
  · intro c v
    refine ⟨?_, ?_, ?_, ?_⟩
    · simpa using and65534_mod_two (v % 65536)
    · simpa using and65534_mod_two (v % 65536)
    · simpa using and254_mod_two (v % 256)
    · simpa using and254_mod_two (v % 256)
  · intro evs
    induction evs with
    | nil =>
      intro c h
      rw [runEvents, Option.some.injEq] at h
      subst h
      exact evenInv_computerNew
    | cons e rest ih =>
      intro c h
      rw [runEvents] at h
      cases hr : runEvents rest with
      | none =>
        rw [hr] at h
        simp at h
      | some c0 =>
        rw [hr] at h
        have hc0 : EvenInv c0 := ih c0 hr
        cases e with
        | stepEv =>
          simp only [applyEvent] at h
          cases hs : step c0 with
          | error e =>
            rw [hs] at h
            simp [Except.toOption] at h
          | ok c1 =>
            rw [hs] at h
            simp only [Except.toOption, Option.some.injEq] at h
            subst h
            exact evenInv_step hs hc0
        | interruptEv v =>
          simp only [applyEvent, Option.some.injEq] at h
          subst h
          exact evenInv_interrupt _ hc0
        | resetEv =>
          simp only [applyEvent, reset, Option.some.injEq] at h
          subst h
          exact evenInv_computerNew

/-- The machine after one step of the all-zero machine: the pc has
advanced by 2 and nothing else changed. -/
def c8after : Computer :=
  { pc := 2
    sp := 0
    sr := 0
    regs := fun _ => 0
    mem := fun _ => 0 }

/-- C8 witness: the state reached by a single step from the all-zero
machine has even pc and sp. -/
theorem claim8_word_alignment_witness :
    c8after.pc % 2 = 0 ∧ c8after.sp % 2 = 0 :=
  claim8_word_alignment.2 [MachineEvent.stepEv] c8after rfl

end Msp430
